import Mathlib

/-!
Shallow embedding of `src/icloud_to_s3.py` (class `iCloudS3Sync`).

External collaborators (the iCloud client, the S3 client, the filesystem)
are modelled as per-item oracles (`ItemEnv`): what `photo.download()`
returns, what `s3_client.head_object` does for a key, and whether
`s3_client.upload_file` succeeds.  The MD5 fingerprinter is kept abstract
as a parameter `hashF : String → String` (content bytes are modelled as a
`String`); none of the verified properties depend on MD5 internals.

The checkpoint set `self.processed_files` is modelled as a `List String`
with set-insertion semantics, the periodic/final `save_sync_state` calls
as a counter, and a delivered `KeyboardInterrupt` as a per-item flag that
aborts the orchestrator loop (in the Python source the loop's
`except Exception` does not catch `KeyboardInterrupt`, so the interrupt
propagates out of `sync_photos` past the final save and is caught in
`main`, which returns 1).
-/

/-- Creation timestamp of a photo, as used by `generate_s3_key`
(`created.year`, `created.month`). -/
structure CreatedDate where
  year : Nat
  month : Nat
deriving Repr, DecidableEq

/-- A source item: `photo.id`, optional `photo.filename`, optional
`photo.created` (the `asset_date` fallback is collapsed into `created`). -/
structure Photo where
  id : String
  filename : Option String
  created : Option CreatedDate
deriving Repr, DecidableEq

/-- What the fetch does for an item: a successful fetch of some content
written to the scratch file; a falsy response (line 265
`if not download_response`), detected before the scratch file is opened;
an exception from `photo.download()` itself (line 264), raised before
`open()` so no scratch file exists yet; or an exception from
`download_response.raw.read()` or the write (lines 270-271), raised
after `open(temp_file, 'wb')` has already created the scratch file.
Both exceptions are caught by the catch-all at line 306, which does not
remove the file. -/
inductive DownloadResult
  | ok (content : String)
  | failedResponse
  | raisesBeforeWrite
  | raisesDuringWrite
deriving Repr, DecidableEq

/-- What `s3_client.head_object(Bucket, Key)` does for a key: a response
carrying an `ETag` string, a `ClientError` with an error code (a missing
object surfaces as code `"404"`), or a fault raised as some other
exception type (which `file_exists_in_s3` does not catch). -/
inductive HeadResult
  | ok (etag : String)
  | clientError (code : String)
  | otherError
deriving Repr, DecidableEq

/-- The external world's behaviour while one item is processed.
`interrupt` models a `KeyboardInterrupt` delivered at the start of the
item's loop iteration; `upload` is the boolean result of
`upload_to_s3` (which catches all exceptions internally and returns
`False` on failure, lines 185-205). -/
structure ItemEnv where
  interrupt : Bool
  download : DownloadResult
  head : String → HeadResult
  upload : Bool

/-- Python's `s.strip('"')` on the ETag (line 175): remove every leading
and every trailing double-quote character. -/
def stripQuotes (s : String) : String :=
  String.mk (((s.toList.dropWhile (fun c => c = '"')).reverse.dropWhile
    (fun c => c = '"')).reverse)

/-- `iCloudS3Sync.file_exists_in_s3` (lines 171-183): head the key, strip
quotes from the ETag and compare for string equality against the local
hash; a `ClientError` (code 404 or any other code) yields `false`; any
other exception from the head call is not caught and propagates
(`Except.error`). -/
def file_exists_in_s3 (head : String → HeadResult) (s3_key : String)
    (local_hash : String) : Except Unit Bool :=
  match head s3_key with
  | HeadResult.ok etag => Except.ok (stripQuotes etag == local_hash)
  | HeadResult.clientError code =>
      if code = "404" then Except.ok false else Except.ok false
  | HeadResult.otherError => Except.error ()

/-- Zero-padding of the month, Python `f-string` format `02d` (line 237). -/
def pad2 (n : Nat) : String :=
  if n < 10 then "0" ++ toString n else toString n

/-- `getattr(photo, 'filename', f"photo_(photo.id).jpg")` (line 248). -/
def photo_filename (p : Photo) : String :=
  match p.filename with
  | some f => f
  | none => "photo_" ++ p.id ++ ".jpg"

/-- The checkpoint de-duplication key `f"(photo.id)_(filename)"`
(line 251, and inline again at line 350). -/
def photo_id_key (p : Photo) : String :=
  p.id ++ "_" ++ photo_filename p

/-- `iCloudS3Sync.generate_s3_key` (lines 226-242): date-partitioned key
when a creation date is known, else the `unknown_date` partition. -/
def generate_s3_key (p : Photo) : String :=
  match p.created with
  | some d =>
      "photos/" ++ toString d.year ++ "/" ++ pad2 d.month ++ "/" ++
        photo_filename p
  | none => "photos/unknown_date/" ++ photo_filename p

/-- `self.processed_files.add(photo_id)`: set insertion on the modelled
checkpoint list. -/
def markSynced (files : List String) (k : String) : List String :=
  if k ∈ files then files else k :: files

/-- Observable result of one `download_and_upload_photo` call: the boolean
the function returns, the checkpoint set after the call, whether the
scratch file still exists on disk after the call returns, and whether
`upload_to_s3` (S3 `putObject`) was invoked. -/
structure TransferResult where
  retOk : Bool
  files : List String
  scratchExists : Bool
  uploadCalled : Bool
deriving Repr, DecidableEq

/-- `iCloudS3Sync.download_and_upload_photo` (lines 244-308).
Fast path: an id already in `processed_files` returns `True` with no I/O.
A falsy download response returns `False` before the scratch file is
written.  An exception raised by `photo.download()` itself is caught at
line 306 and returns `False` with no scratch file on disk; but an
exception raised by `raw.read()` or the write at line 271 strikes after
`open()` at line 270 has created the scratch file, and the catch-all
returns `False` without removing it — the file leaks.
After the scratch file is written, the hash is computed and the
destination is probed: a probe `True` marks the key synced, removes the
scratch file and returns `True`; a probe `False` triggers the upload,
where success marks the key synced and failure leaves the checkpoint
unchanged — in both cases the scratch file is removed and (line 304) the
function returns `True`.  A non-`ClientError` fault from the probe
propagates to the catch-all at line 306, which returns `False` without
removing the scratch file. -/
def download_and_upload_photo (hashF : String → String) (env : ItemEnv)
    (p : Photo) (files : List String) : TransferResult :=
  let pid := photo_id_key p
  if pid ∈ files then
    { retOk := true, files := files, scratchExists := false,
      uploadCalled := false }
  else
    match env.download with
    | DownloadResult.raisesBeforeWrite =>
        { retOk := false, files := files, scratchExists := false,
          uploadCalled := false }
    | DownloadResult.raisesDuringWrite =>
        { retOk := false, files := files, scratchExists := true,
          uploadCalled := false }
    | DownloadResult.failedResponse =>
        { retOk := false, files := files, scratchExists := false,
          uploadCalled := false }
    | DownloadResult.ok content =>
        let file_hash := hashF content
        let s3_key := generate_s3_key p
        match file_exists_in_s3 env.head s3_key file_hash with
        | Except.error _ =>
            { retOk := false, files := files, scratchExists := true,
              uploadCalled := false }
        | Except.ok true =>
            { retOk := true, files := markSynced files pid,
              scratchExists := false, uploadCalled := false }
        | Except.ok false =>
            if env.upload then
              { retOk := true, files := markSynced files pid,
                scratchExists := false, uploadCalled := true }
            else
              { retOk := true, files := files, scratchExists := false,
                uploadCalled := true }

/-- The statistics dictionary built at lines 334-340 and returned by
`sync_photos`. -/
structure Stats where
  total : Nat
  processed : Nat
  uploaded : Nat
  skipped : Nat
  errors : Nat
deriving Repr, DecidableEq

/-- In-flight state of the orchestrator loop: the checkpoint set, the
statistics, the number of `save_sync_state` calls so far and the number
of S3 upload invocations so far. -/
structure LoopState where
  files : List String
  stats : Stats
  saves : Nat
  uploads : Nat
deriving Repr, DecidableEq

/-- One iteration's statistics update (lines 347-357): a `True` return
increments `processed` and, when the item's id is in `processed_files`
after the call, also `uploaded`; a `False` return increments `errors`.
The `skipped` counter is never touched by the source. -/
def stepItem (hashF : String → String) (p : Photo) (env : ItemEnv)
    (st : LoopState) : LoopState :=
  let r := download_and_upload_photo hashF env p st.files
  if r.retOk then
    { st with
        files := r.files,
        stats := { st.stats with
          processed := st.stats.processed + 1,
          uploaded := st.stats.uploaded +
            (if photo_id_key p ∈ r.files then 1 else 0) },
        uploads := st.uploads + (if r.uploadCalled then 1 else 0) }
  else
    { st with
        files := r.files,
        stats := { st.stats with errors := st.stats.errors + 1 },
        uploads := st.uploads + (if r.uploadCalled then 1 else 0) }

/-- The early-stop condition `if max_photos and i == max_photos`
(line 362): Python truthiness makes `max_photos = 0` (and `None`) never
stop the loop. -/
def stopAfter (maxPhotos : Option Nat) (i : Nat) : Bool :=
  match maxPhotos with
  | none => false
  | some m => if m = 0 then false else decide (i = m)

/-- The `for i, photo in enumerate(photos, 1)` loop of `sync_photos`
(lines 344-364).  A delivered `KeyboardInterrupt` (the item's `interrupt`
flag) is not caught by the loop's `except Exception` and aborts the loop,
returning the state reached so far together with the flag `true`.
Otherwise the item is processed, the state is saved when `i % 10 == 0`,
and the loop stops after item `i == max_photos` (when set and nonzero). -/
def syncLoop (hashF : String → String) (maxPhotos : Option Nat) :
    List (Photo × ItemEnv) → Nat → LoopState → LoopState × Bool
  | [], _, st => (st, false)
  | (p, env) :: rest, i, st =>
      if env.interrupt then (st, true)
      else
        let st1 := stepItem hashF p env st
        let st2 := if i % 10 = 0 then { st1 with saves := st1.saves + 1 }
          else st1
        if stopAfter maxPhotos i then (st2, false)
        else syncLoop hashF maxPhotos rest (i + 1) st2

/-- The statistics dictionary as initialised at lines 334-340. -/
def initStats (n : Nat) : Stats :=
  { total := n, processed := 0, uploaded := 0, skipped := 0, errors := 0 }

/-- Observable result of one `sync_photos` run: the returned (or, for an
interrupted run, in-memory) statistics, the final checkpoint set, the
total number of `save_sync_state` calls, the number of S3 upload
invocations, whether the post-loop save at line 367 ran, and whether the
run was aborted by a `KeyboardInterrupt`. -/
structure RunResult where
  stats : Stats
  files : List String
  saves : Nat
  uploads : Nat
  finalSave : Bool
  interrupted : Bool
deriving Repr, DecidableEq

/-- What happens after the loop (line 366-372): if the loop completed
(normally or via the `max_photos` break) the final `save_sync_state` at
line 367 runs and the statistics are returned; if a `KeyboardInterrupt`
aborted the loop, the exception propagates out of `sync_photos`, skipping
the final save. -/
def finishRun (res : LoopState × Bool) : RunResult :=
  if res.2 then
    { stats := res.1.stats, files := res.1.files, saves := res.1.saves,
      uploads := res.1.uploads, finalSave := false, interrupted := true }
  else
    { stats := res.1.stats, files := res.1.files,
      saves := res.1.saves + 1, uploads := res.1.uploads,
      finalSave := true, interrupted := false }

/-- `iCloudS3Sync.sync_photos` (lines 310-372).  An empty photo list
returns zeroed statistics at line 331, before any `save_sync_state`.
Otherwise the loop runs from index 1 and `finishRun` models the code
after it. -/
def sync_photos (hashF : String → String) (envs : List (Photo × ItemEnv))
    (maxPhotos : Option Nat) (files0 : List String) : RunResult :=
  match envs with
  | [] =>
      { stats := initStats 0, files := files0, saves := 0, uploads := 0,
        finalSave := false, interrupted := false }
  | pe :: rest =>
      finishRun (syncLoop hashF maxPhotos (pe :: rest) 1
        { files := files0, stats := initStats (pe :: rest).length,
          saves := 0, uploads := 0 })

/-- Exit status of `main` for the sync phase (lines 428-446): a completed
run returns 0; a `KeyboardInterrupt` propagating out of `sync_photos` is
caught at line 441 and `main` returns 1. -/
def mainExitCode (r : RunResult) : Nat :=
  if r.interrupted then 1 else 0

/-- Spec-side predicate (claim C7 wording): the item's content has been
confirmed present at the destination by hash — the destination probe
returned true for the item's computed hash, or the upload of that content
reported success. -/
def confirmedAtDestination (hashF : String → String) (env : ItemEnv)
    (p : Photo) : Bool :=
  match env.download with
  | DownloadResult.ok content =>
      match file_exists_in_s3 env.head (generate_s3_key p)
          (hashF content) with
      | Except.ok true => true
      | Except.ok false => env.upload
      | Except.error _ => false
  | _ => false

/-- Number of loop iterations a run performs under the source's break
rule, as a function of loop start index `i`:  with no cap (or the falsy
cap 0) the whole remaining list, otherwise up to and including index
`m`. -/
def consumedCount (maxPhotos : Option Nat) (n i : Nat) : Nat :=
  match maxPhotos with
  | none => n
  | some m =>
      if m = 0 then n else if i ≤ m then min n (m + 1 - i) else n

/-- Number of items a run over `n` items iterates: all of them without a
(nonzero) cap, else `min maxPhotos n`. -/
def iteratedCount (n : Nat) (maxPhotos : Option Nat) : Nat :=
  match maxPhotos with
  | none => n
  | some m => if m = 0 then n else min m n

/-- A concrete stand-in fingerprinter for witnesses (the development is
parametric in the hash function). -/
def hash0 : String → String := fun s => s

/-- A concrete photo for witnesses. -/
def photoA : Photo := { id := "A", filename := some "a.jpg", created := none }

/-- Environment: content downloads fine and the destination already holds
an object whose quoted ETag equals the local hash (probe true). -/
def envSkip : ItemEnv :=
  { interrupt := false, download := DownloadResult.ok "x",
    head := fun _ => HeadResult.ok "\"x\"", upload := true }

/-- Environment: destination object absent (404) and the upload succeeds. -/
def envFirstUpload : ItemEnv :=
  { interrupt := false, download := DownloadResult.ok "x",
    head := fun _ => HeadResult.clientError "404", upload := true }

/-- Environment: destination object absent (404) and the upload fails. -/
def envUploadFails : ItemEnv :=
  { interrupt := false, download := DownloadResult.ok "x",
    head := fun _ => HeadResult.clientError "404", upload := false }

/-- Environment: the destination probe raises a non-`ClientError` fault. -/
def envProbeFault : ItemEnv :=
  { interrupt := false, download := DownloadResult.ok "x",
    head := fun _ => HeadResult.otherError, upload := true }

/-- Environment: the body read at line 271 raises after `open()` has
created the scratch file. -/
def envReadRaises : ItemEnv :=
  { interrupt := false, download := DownloadResult.raisesDuringWrite,
    head := fun _ => HeadResult.clientError "404", upload := true }

/-- Environment: a `KeyboardInterrupt` is delivered at this item. -/
def envInterrupt : ItemEnv :=
  { interrupt := true, download := DownloadResult.ok "x",
    head := fun _ => HeadResult.clientError "404", upload := true }

/-- Environment: destination object exists but carries a multipart-style
ETag that is not the plain MD5 of the content. -/
def envMultipart : ItemEnv :=
  { interrupt := false, download := DownloadResult.ok "x",
    head := fun _ => HeadResult.ok "\"x-2\"", upload := true }

/-!  Helper lemmas shared by the claim theorems. -/

theorem mem_markSynced (files : List String) (a k : String) :
    k ∈ markSynced files a ↔ k ∈ files ∨ k = a := by
  unfold markSynced
  split
  · next hmem =>
      constructor
      · exact Or.inl
      · rintro (h | rfl)
        · exact h
        · exact hmem
  · simp [List.mem_cons, or_comm]

theorem finishRun_stats (res : LoopState × Bool) :
    (finishRun res).stats = res.1.stats := by
  unfold finishRun
  split <;> rfl

theorem finishRun_interrupted (res : LoopState × Bool) :
    (finishRun res).interrupted = res.2 := by
  unfold finishRun
  split <;> simp_all

theorem finishRun_finalSave (res : LoopState × Bool) :
    (finishRun res).finalSave = !res.2 := by
  unfold finishRun
  split <;> simp_all

theorem stepItem_processed_errors (hashF : String → String) (p : Photo)
    (env : ItemEnv) (st : LoopState) :
    (stepItem hashF p env st).stats.processed +
      (stepItem hashF p env st).stats.errors
      = st.stats.processed + st.stats.errors + 1 := by
  simp only [stepItem]
  split <;> dsimp <;> omega

theorem saveTick_stats (c : Prop) [Decidable c] (st : LoopState) :
    (if c then { st with saves := st.saves + 1 } else st).stats
      = st.stats := by
  split <;> rfl

theorem consumedCount_zero (maxPhotos : Option Nat) (i : Nat) :
    consumedCount maxPhotos 0 i = 0 := by
  cases maxPhotos with
  | none => rfl
  | some m =>
      simp only [consumedCount]
      split_ifs <;> omega

theorem consumedCount_stop (maxPhotos : Option Nat) (n i : Nat)
    (h : stopAfter maxPhotos i = true) :
    consumedCount maxPhotos (n + 1) i = 1 := by
  cases maxPhotos with
  | none => simp [stopAfter] at h
  | some m =>
      simp only [stopAfter] at h
      simp only [consumedCount]
      by_cases hm : m = 0
      · simp [hm] at h
      · simp only [hm, if_false, decide_eq_true_eq] at h
        subst h
        split_ifs <;> omega

theorem consumedCount_step (maxPhotos : Option Nat) (n i : Nat)
    (h : stopAfter maxPhotos i = false) :
    consumedCount maxPhotos (n + 1) i
      = consumedCount maxPhotos n (i + 1) + 1 := by
  cases maxPhotos with
  | none => rfl
  | some m =>
      simp only [stopAfter] at h
      simp only [consumedCount]
      by_cases hm : m = 0
      · simp [hm]
      · simp only [hm, if_false, decide_eq_false_iff_not] at h
        split_ifs <;> omega

theorem consumedCount_one (maxPhotos : Option Nat) (n : Nat) :
    consumedCount maxPhotos n 1 = iteratedCount n maxPhotos := by
  cases maxPhotos with
  | none => rfl
  | some m =>
      simp only [consumedCount, iteratedCount]
      split_ifs <;> omega

theorem iteratedCount_zero (maxPhotos : Option Nat) :
    iteratedCount 0 maxPhotos = 0 := by
  cases maxPhotos with
  | none => rfl
  | some m =>
      simp only [iteratedCount]
      split_ifs <;> omega

theorem syncLoop_no_interrupt (hashF : String → String)
    (maxPhotos : Option Nat) (l : List (Photo × ItemEnv)) :
    ∀ (i : Nat) (st : LoopState),
      l.all (fun pe => !pe.2.interrupt) = true →
      (syncLoop hashF maxPhotos l i st).2 = false := by
  induction l with
  | nil =>
      intro i st _
      rfl
  | cons pe rest ih =>
      intro i st hall
      obtain ⟨p, env⟩ := pe
      simp only [List.all_cons, Bool.and_eq_true, Bool.not_eq_true'] at hall
      obtain ⟨hint, hrest⟩ := hall
      simp only [syncLoop, hint, Bool.false_eq_true, if_false]
      split
      · rfl
      · exact ih (i + 1) _ hrest

theorem syncLoop_processed_errors (hashF : String → String)
    (maxPhotos : Option Nat) (l : List (Photo × ItemEnv)) :
    ∀ (i : Nat) (st : LoopState),
      l.all (fun pe => !pe.2.interrupt) = true →
      (syncLoop hashF maxPhotos l i st).1.stats.processed +
        (syncLoop hashF maxPhotos l i st).1.stats.errors
        = st.stats.processed + st.stats.errors +
            consumedCount maxPhotos l.length i := by
  induction l with
  | nil =>
      intro i st _
      simp [syncLoop, consumedCount_zero]
  | cons pe rest ih =>
      intro i st hall
      obtain ⟨p, env⟩ := pe
      simp only [List.all_cons, Bool.and_eq_true, Bool.not_eq_true'] at hall
      obtain ⟨hint, hrest⟩ := hall
      simp only [syncLoop, hint, Bool.false_eq_true, if_false]
      cases hstop : stopAfter maxPhotos i with
      | true =>
          simp only [hstop, if_true]
          rw [saveTick_stats, stepItem_processed_errors, List.length_cons,
            consumedCount_stop maxPhotos rest.length i hstop]
      | false =>
          simp only [hstop, Bool.false_eq_true, if_false]
          rw [ih (i + 1) _ hrest, saveTick_stats, stepItem_processed_errors,
            List.length_cons,
            consumedCount_step maxPhotos rest.length i hstop]
          omega

/-!  Claim theorems. -/

/-- C1 (code bug evaluation): for one item already present at the
destination with a matching hash, the source's run counts it in
`processed` and in `uploaded` (because the id was added to
`processed_files` by the skip path), leaves `skipped` at 0 — the
`skipped` counter is never incremented anywhere — and performs zero S3
uploads.  The claimed mapping (`Skipped`s counted in `skipped`,
`uploaded` only for actual uploads) does not hold in the code. -/
theorem skip_scenario_counted_as_uploaded :
    (sync_photos hash0 [(photoA, envSkip)] none []).stats.skipped = 0 ∧
    (sync_photos hash0 [(photoA, envSkip)] none []).stats.uploaded = 1 ∧
    (sync_photos hash0 [(photoA, envSkip)] none []).stats.processed = 1 ∧
    (sync_photos hash0 [(photoA, envSkip)] none []).uploads = 0 := by
  refine ⟨by decide, by decide, by decide, by decide⟩

/-- C2 (code bug evaluation): after a first run uploads the single item,
a second run over the unchanged inventory performs zero S3 uploads (the
checkpoint fast path short-circuits before any network call), yet the
statistics it returns report `uploaded = 1`, not `uploaded = 0` as the
claim states, because the loop counts every id found in
`processed_files` after the call as uploaded. -/
theorem second_run_fast_path_counted_as_uploaded :
    (sync_photos hash0 [(photoA, envFirstUpload)] none
      (sync_photos hash0 [(photoA, envFirstUpload)] none []).files).uploads
        = 0 ∧
    (sync_photos hash0 [(photoA, envFirstUpload)] none
      (sync_photos hash0 [(photoA, envFirstUpload)] none
        []).files).stats.uploaded = 1 := by
  refine ⟨by decide, by decide⟩

/-- C3 (code bug evaluation): when the upload fails,
`download_and_upload_photo` does not mark the item synced (the
checkpoint is unchanged, so the item is retried next run) but it returns
`True` — line 304 runs after the failed upload — so the orchestrator
counts the item as `processed`, not as an error, contradicting the
claimed `Failed` outcome. -/
theorem upload_failure_returns_success :
    (download_and_upload_photo hash0 envUploadFails photoA []).retOk
        = true ∧
    (download_and_upload_photo hash0 envUploadFails photoA []).files = [] ∧
    (sync_photos hash0 [(photoA, envUploadFails)] none []).stats.errors
        = 0 ∧
    (sync_photos hash0 [(photoA, envUploadFails)] none []).stats.processed
        = 1 := by
  refine ⟨by decide, by decide, by decide, by decide⟩

/-- C4 counterexample: a run over an empty item list returns at line 331
before any `save_sync_state`, so no checkpoint flush at all is executed —
contradicting the claim that the post-loop flush happens even when the
enumerated item list is empty. -/
theorem empty_run_performs_no_flush :
    (sync_photos hash0 [] none []).finalSave = false ∧
    (sync_photos hash0 [] none []).saves = 0 := by
  exact ⟨rfl, rfl⟩

/-- C4 amended: for every run over a nonempty item list that is not
aborted by an interrupt — including runs stopped early by `maxPhotos` —
the post-loop checkpoint flush is executed; a run over an empty list
returns zeroed statistics without any flush. -/
theorem final_flush_when_nonempty (hashF : String → String)
    (envs : List (Photo × ItemEnv)) (maxPhotos : Option Nat)
    (files0 : List String) (hne : envs ≠ [])
    (hni : (sync_photos hashF envs maxPhotos files0).interrupted = false) :
    (sync_photos hashF envs maxPhotos files0).finalSave = true := by
  cases envs with
  | nil => exact absurd rfl hne
  | cons pe rest =>
      simp only [sync_photos] at hni ⊢
      rw [finishRun_finalSave, finishRun_interrupted] at *
      rw [hni]
      rfl

/-- Witness for the amended C4: a two-item inventory capped at
`maxPhotos = 1` stops the loop early and still performs the final
flush. -/
theorem final_flush_when_nonempty_witness :
    ([(photoA, envSkip), (photoA, envSkip)]
        ≠ ([] : List (Photo × ItemEnv))) ∧
    (sync_photos hash0 [(photoA, envSkip), (photoA, envSkip)] (some 1)
        []).interrupted = false ∧
    (sync_photos hash0 [(photoA, envSkip), (photoA, envSkip)] (some 1)
        []).finalSave = true :=
  ⟨List.cons_ne_nil _ _, by decide,
    final_flush_when_nonempty hash0
      [(photoA, envSkip), (photoA, envSkip)] (some 1) []
      (List.cons_ne_nil _ _) (by decide)⟩

/-- C5 counterexample: a `KeyboardInterrupt` delivered while the single
item of a one-item inventory is being processed aborts the run with no
checkpoint flush whatsoever — the final flush claimed to happen before
termination is not executed (the loop's `except Exception` does not
catch `KeyboardInterrupt`, which propagates past line 367) — although
the process does exit with status 1. -/
theorem interrupt_aborts_without_flush :
    (sync_photos hash0 [(photoA, envInterrupt)] none []).saves = 0 ∧
    (sync_photos hash0 [(photoA, envInterrupt)] none []).finalSave
        = false ∧
    mainExitCode (sync_photos hash0 [(photoA, envInterrupt)] none []) = 1 := by
  refine ⟨by decide, by decide, by decide⟩

/-- C5 amended: an external interrupt during the iteration propagates out
of the orchestrator (it is not caught at the orchestrator level), so the
final checkpoint flush is skipped — durable state is whatever the last
periodic flush wrote — and the interrupt is caught at the top level in
`main`, which exits with the non-zero status 1. -/
theorem interrupt_skips_final_flush (hashF : String → String)
    (envs : List (Photo × ItemEnv)) (maxPhotos : Option Nat)
    (files0 : List String)
    (hint : (sync_photos hashF envs maxPhotos files0).interrupted = true) :
    (sync_photos hashF envs maxPhotos files0).finalSave = false ∧
    mainExitCode (sync_photos hashF envs maxPhotos files0) = 1 := by
  refine ⟨?_, by simp [mainExitCode, hint]⟩
  cases envs with
  | nil => simp [sync_photos] at hint
  | cons pe rest =>
      simp only [sync_photos] at hint ⊢
      rw [finishRun_finalSave, finishRun_interrupted] at *
      rw [hint]
      rfl

/-- Witness for the amended C5: a concrete interrupted run. -/
theorem interrupt_skips_final_flush_witness :
    (sync_photos hash0 [(photoA, envInterrupt)] none []).interrupted
        = true ∧
    ((sync_photos hash0 [(photoA, envInterrupt)] none []).finalSave
        = false ∧
      mainExitCode (sync_photos hash0 [(photoA, envInterrupt)] none [])
        = 1) :=
  ⟨by decide,
    interrupt_skips_final_flush hash0 [(photoA, envInterrupt)] none []
      (by decide)⟩

/-- C6 counterexample: exceptions caught inside the function after the
scratch file exists leave it behind — when the destination probe raises
a fault that is not a `ClientError`, and likewise when the body read at
line 271 raises after `open()` at line 270 created the file, the
catch-all at line 306 returns without removing the scratch file, so it
still exists after `download_and_upload_photo` returns, contradicting
the claimed every-exit-path cleanup. -/
theorem scratch_leak_on_probe_fault :
    (download_and_upload_photo hash0 envProbeFault photoA []).scratchExists
        = true ∧
    (download_and_upload_photo hash0 envReadRaises photoA []).scratchExists
        = true := by
  refine ⟨by decide, by decide⟩

/-- Helper: the probe propagates an exception only when the head call
raised a non-`ClientError` fault. -/
theorem file_exists_error_imp (head : String → HeadResult) (k h : String)
    (e : Unit) (herr : file_exists_in_s3 head k h = Except.error e) :
    head k = HeadResult.otherError := by
  cases hd : head k with
  | ok etag =>
      simp only [file_exists_in_s3, hd] at herr
      exact Except.noConfusion herr
  | clientError code =>
      simp only [file_exists_in_s3, hd] at herr
      split at herr <;> exact Except.noConfusion herr
  | otherError => rfl

/-- C6 amended: on every exit path that does not go through the
function's exception handler while the scratch file exists — the fast
path, a falsy download response, a `photo.download()` raise before the
file is opened, a hash-match skip, and an upload (successful or failed)
— the scratch file does not exist after `download_and_upload_photo`
returns; but when an exception strikes once the file exists (the body
read at line 271 raising after `open()` at line 270, or the probe
raising a non-`ClientError` fault) the file is left behind until the
run-scoped temporary directory is torn down. -/
theorem scratch_removed_without_probe_fault (hashF : String → String)
    (env : ItemEnv) (p : Photo) (files : List String)
    (hread : env.download ≠ DownloadResult.raisesDuringWrite)
    (hprobe : env.head (generate_s3_key p) ≠ HeadResult.otherError) :
    (download_and_upload_photo hashF env p files).scratchExists = false := by
  simp only [download_and_upload_photo]
  split
  · rfl
  · cases hd : env.download with
    | raisesBeforeWrite => rfl
    | raisesDuringWrite => exact absurd hd hread
    | failedResponse => rfl
    | ok content =>
        dsimp only
        cases hp : file_exists_in_s3 env.head (generate_s3_key p)
            (hashF content) with
        | error e =>
            exact absurd
              (file_exists_error_imp env.head (generate_s3_key p)
                (hashF content) e hp) hprobe
        | ok b =>
            cases b
            · dsimp only
              split <;> rfl
            · rfl

/-- Witness for the amended C6: the hash-match skip environment fetches
and probes without fault and leaves no scratch file. -/
theorem scratch_removed_without_probe_fault_witness :
    (envSkip.download ≠ DownloadResult.raisesDuringWrite) ∧
    (envSkip.head (generate_s3_key photoA) ≠ HeadResult.otherError) ∧
    (download_and_upload_photo hash0 envSkip photoA []).scratchExists
      = false :=
  ⟨by decide, by decide,
    scratch_removed_without_probe_fault hash0 envSkip photoA [] (by decide)
      (by decide)⟩

/-- C7: a key belongs to the checkpoint set after a
`download_and_upload_photo` call exactly when it was already there or it
is this item's key and the item's content was confirmed present at the
destination — the probe answered true for the computed hash, or the
upload reported success.  No error path (failed fetch, probe fault,
failed upload) adds a key. -/
theorem synced_key_iff_confirmed (hashF : String → String) (env : ItemEnv)
    (p : Photo) (files : List String) (k : String) :
    k ∈ (download_and_upload_photo hashF env p files).files ↔
      (k ∈ files ∨ (k = photo_id_key p ∧
        confirmedAtDestination hashF env p = true)) := by
  simp only [download_and_upload_photo, confirmedAtDestination]
  split
  · next hmem =>
      constructor
      · exact Or.inl
      · rintro (h | ⟨rfl, _⟩)
        · exact h
        · exact hmem
  · cases hd : env.download with
    | raisesBeforeWrite => simp
    | raisesDuringWrite => simp
    | failedResponse => simp
    | ok content =>
        dsimp only
        cases hp : file_exists_in_s3 env.head (generate_s3_key p)
            (hashF content) with
        | error e => simp
        | ok b =>
            cases b with
            | true => simp [mem_markSynced]
            | false =>
                cases hu : env.upload with
                | true => simp [mem_markSynced]
                | false => simp

/-- Witness for C7 at a concrete input: the hash-match skip marks exactly
the item's key. -/
theorem synced_key_iff_confirmed_witness :
    "A_a.jpg" ∈ (download_and_upload_photo hash0 envSkip photoA []).files ↔
      ("A_a.jpg" ∈ ([] : List String) ∨ ("A_a.jpg" = photo_id_key photoA ∧
        confirmedAtDestination hash0 envSkip photoA = true)) :=
  synced_key_iff_confirmed hash0 envSkip photoA [] "A_a.jpg"

/-- C8 counterexample: a destination-side fault raised as anything other
than a `ClientError` (e.g. a transient connection error) is not caught by
`file_exists_in_s3` — the probe raises to its caller instead of returning
false, contradicting the claim that any destination-side fault is treated
as false without raising. -/
theorem probe_fault_propagates :
    file_exists_in_s3 (fun _ => HeadResult.otherError)
      "photos/unknown_date/a.jpg" "h" = Except.error () := rfl

/-- C8 amended: the probe returns true exactly when the destination
object exists and its ETag, with surrounding quotes stripped, equals the
expected hash; it returns false when the object is absent (code 404) and
on any fault surfaced as a `ClientError` (any code, e.g. a permission
error); a fault raised as a different exception type propagates to the
caller instead of being treated as false. -/
theorem probe_result_characterization (k h etag code : String) :
    (file_exists_in_s3 (fun _ => HeadResult.ok etag) k h = Except.ok true ↔
      stripQuotes etag = h) ∧
    file_exists_in_s3 (fun _ => HeadResult.clientError "404") k h
      = Except.ok false ∧
    file_exists_in_s3 (fun _ => HeadResult.clientError code) k h
      = Except.ok false ∧
    file_exists_in_s3 (fun _ => HeadResult.otherError) k h
      = Except.error () := by
  refine ⟨?_, rfl, ?_, rfl⟩
  · simp [file_exists_in_s3]
  · simp only [file_exists_in_s3]
    split <;> rfl

/-- Witness for the amended C8 at concrete strings. -/
theorem probe_result_characterization_witness :
    (file_exists_in_s3 (fun _ => HeadResult.ok "\"h\"") "k" "h"
        = Except.ok true ↔ stripQuotes "\"h\"" = "h") ∧
    file_exists_in_s3 (fun _ => HeadResult.clientError "404") "k" "h"
      = Except.ok false ∧
    file_exists_in_s3 (fun _ => HeadResult.clientError "403") "k" "h"
      = Except.ok false ∧
    file_exists_in_s3 (fun _ => HeadResult.otherError) "k" "h"
      = Except.error () :=
  probe_result_characterization "k" "h" "\"h\"" "403"

/-- C9: over any run that is not aborted by an interrupt, every loop
iteration increments exactly one of `processed` or `errors`, so the
returned statistics satisfy `processed + errors = number of items
iterated` — the full inventory size, or `maxPhotos` when the (nonzero)
cap stops the loop early. -/
theorem run_processed_plus_errors (hashF : String → String)
    (envs : List (Photo × ItemEnv)) (maxPhotos : Option Nat)
    (files0 : List String)
    (hni : envs.all (fun pe => !pe.2.interrupt) = true) :
    (sync_photos hashF envs maxPhotos files0).stats.processed +
      (sync_photos hashF envs maxPhotos files0).stats.errors
      = iteratedCount envs.length maxPhotos := by
  cases envs with
  | nil => simp [sync_photos, initStats, iteratedCount_zero]
  | cons pe rest =>
      simp only [sync_photos]
      rw [finishRun_stats,
        syncLoop_processed_errors hashF maxPhotos (pe :: rest) 1 _ hni,
        consumedCount_one]
      simp [initStats]

/-- Witness for C9: three items with the cap set to 2 iterate exactly two
items. -/
theorem run_processed_plus_errors_witness :
    ([(photoA, envSkip), (photoA, envUploadFails),
        (photoA, envProbeFault)].all (fun pe => !pe.2.interrupt) = true) ∧
    (sync_photos hash0
        [(photoA, envSkip), (photoA, envUploadFails),
          (photoA, envProbeFault)] (some 2) []).stats.processed +
      (sync_photos hash0
        [(photoA, envSkip), (photoA, envUploadFails),
          (photoA, envProbeFault)] (some 2) []).stats.errors
      = iteratedCount
          [(photoA, envSkip), (photoA, envUploadFails),
            (photoA, envProbeFault)].length (some 2) :=
  ⟨by decide,
    run_processed_plus_errors hash0
      [(photoA, envSkip), (photoA, envUploadFails),
        (photoA, envProbeFault)] (some 2) [] (by decide)⟩

/-- C10: the probe's equality check is plain string equality between the
quote-stripped ETag and the locally computed hash, so a destination
object whose ETag is not a plain content hash (e.g. a multipart-style
tag) compares unequal and the Transfer Engine proceeds to call the S3
upload even though the object exists. -/
theorem etag_compared_as_string (hashF : String → String) (env : ItemEnv)
    (p : Photo) (files : List String) (c etag k h : String)
    (h1 : photo_id_key p ∉ files)
    (h2 : env.download = DownloadResult.ok c)
    (h3 : env.head (generate_s3_key p) = HeadResult.ok etag)
    (h4 : stripQuotes etag ≠ hashF c) :
    file_exists_in_s3 (fun _ => HeadResult.ok etag) k h
        = Except.ok (stripQuotes etag == h) ∧
    (download_and_upload_photo hashF env p files).uploadCalled = true := by
  refine ⟨rfl, ?_⟩
  have hb : (stripQuotes etag == hashF c) = false :=
    beq_eq_false_iff_ne.mpr h4
  simp only [download_and_upload_photo, h2, file_exists_in_s3, h3, hb]
  rw [if_neg h1]
  split <;> rfl

/-- Witness for C10: a multipart-style ETag on an existing object forces
an upload call. -/
theorem etag_compared_as_string_witness :
    (photo_id_key photoA ∉ ([] : List String)) ∧
    envMultipart.download = DownloadResult.ok "x" ∧
    envMultipart.head (generate_s3_key photoA) = HeadResult.ok "\"x-2\"" ∧
    stripQuotes "\"x-2\"" ≠ hash0 "x" ∧
    (file_exists_in_s3 (fun _ => HeadResult.ok "\"x-2\"") "k" "h"
        = Except.ok (stripQuotes "\"x-2\"" == "h") ∧
      (download_and_upload_photo hash0 envMultipart photoA []).uploadCalled
        = true) :=
  ⟨by decide, rfl, rfl, by decide,
    etag_compared_as_string hash0 envMultipart photoA [] "x" "\"x-2\""
      "k" "h" (by decide) rfl rfl (by decide)⟩
